import Mathlib

/-!
# Verification of the credential store in `app.py`

This file gives a shallow embedding of the credential store of the quiz
application (`src/app.py`): the functions `hash_password`, `load_users`,
`save_users`, `register_user`, the credential check inside `login`, the
user-deletion action of `admin_panel`, and the validation in the `register`
form, together with the thread-interleaving behaviour exercised by
`src/test_persistence.py`.  Machine words are modelled as `Nat` reduced
modulo `2 ^ 32` where overflow matters; the file system state of the single
backing file `users.json` is modelled explicitly; Python exceptions are
modelled with `Except`.
-/

set_option autoImplicit false
set_option maxRecDepth 100000

/-! ## SHA-256 (the digest used by `hash_password`)

`hash_password(password)` in `src/app.py` is
`hashlib.sha256(password.encode()).hexdigest()`: the SHA-256 digest of the
UTF-8 encoding of the password, rendered as a 64-character lowercase hex
string.  The algorithm (FIPS 180-4) is embedded here over `Nat`, with
32-bit words represented as naturals reduced modulo `2 ^ 32`. -/

/-- Reduce a natural to a 32-bit word. -/
def w32 (x : Nat) : Nat := x % 4294967296

/-- Rotate a 32-bit word right by `n` bits. -/
def rotr32 (x n : Nat) : Nat := w32 ((x >>> n) ||| (x <<< (32 - n)))

/-- Three-way xor. -/
def xor3 (a b c : Nat) : Nat := (a ^^^ b) ^^^ c

/-- SHA-256 `Ch` function; `¬x` is xor with the 32-bit all-ones mask. -/
def ch32 (x y z : Nat) : Nat := (x &&& y) ^^^ ((x ^^^ 4294967295) &&& z)

/-- SHA-256 `Maj` function. -/
def maj32 (x y z : Nat) : Nat := xor3 (x &&& y) (x &&& z) (y &&& z)

/-- SHA-256 `Σ₀`. -/
def bigSigma0 (x : Nat) : Nat := xor3 (rotr32 x 2) (rotr32 x 13) (rotr32 x 22)

/-- SHA-256 `Σ₁`. -/
def bigSigma1 (x : Nat) : Nat := xor3 (rotr32 x 6) (rotr32 x 11) (rotr32 x 25)

/-- SHA-256 `σ₀`. -/
def smallSigma0 (x : Nat) : Nat := xor3 (rotr32 x 7) (rotr32 x 18) (x >>> 3)

/-- SHA-256 `σ₁`. -/
def smallSigma1 (x : Nat) : Nat := xor3 (rotr32 x 17) (rotr32 x 19) (x >>> 10)

/-- The sixty-four round constants of SHA-256 (FIPS 180-4 section 4.2.2,
written in decimal). -/
def sha256K : List Nat :=
  [1116352408, 1899447441, 3049323471, 3921009573, 961987163, 1508970993,
   2453635748, 2870763221, 3624381080, 310598401, 607225278, 1426881987,
   1925078388, 2162078206, 2614888103, 3248222580, 3835390401, 4022224774,
   264347078, 604807628, 770255983, 1249150122, 1555081692, 1996064986,
   2554220882, 2821834349, 2952996808, 3210313671, 3336571891, 3584528711,
   113926993, 338241895, 666307205, 773529912, 1294757372, 1396182291,
   1695183700, 1986661051, 2177026350, 2456956037, 2730485921, 2820302411,
   3259730800, 3345764771, 3516065817, 3600352804, 4094571909, 275423344,
   430227734, 506948616, 659060556, 883997877, 958139571, 1322822218,
   1537002063, 1747873779, 1955562222, 2024104815, 2227730452, 2361852424,
   2428436474, 2756734187, 3204031479, 3329325298]

/-- The initial hash state of SHA-256 (FIPS 180-4 section 5.3.3, written in
decimal). -/
def sha256H0 : List Nat :=
  [1779033703, 3144134277, 1013904242, 2773480762,
   1359893119, 2600822924, 528734635, 1541459225]

/-- UTF-8 encoding of one code point (the default of Python `str.encode`). -/
def utf8Bytes (c : Char) : List Nat :=
  let n := c.toNat
  if n < 128 then [n]
  else if n < 2048 then [192 ||| (n >>> 6), 128 ||| (n &&& 63)]
  else if n < 65536 then
    [224 ||| (n >>> 12), 128 ||| ((n >>> 6) &&& 63), 128 ||| (n &&& 63)]
  else
    [240 ||| (n >>> 18), 128 ||| ((n >>> 12) &&& 63), 128 ||| ((n >>> 6) &&& 63),
     128 ||| (n &&& 63)]

/-- UTF-8 byte sequence of a string, i.e. Python `s.encode()`. -/
def strBytes (s : String) : List Nat := (s.data.map utf8Bytes).flatten

/-- The 8-byte big-endian encoding of a message bit length. -/
def lenBytesBE (n : Nat) : List Nat :=
  (List.range 8).map (fun i => (n >>> ((7 - i) * 8)) % 256)

/-- SHA-256 message padding: append `0x80`, zero bytes up to 56 mod 64, then
the 64-bit big-endian bit length. -/
def padMessage (msg : List Nat) : List Nat :=
  let zeros := (119 - msg.length % 64) % 64
  msg ++ (128 :: List.replicate zeros 0) ++ lenBytesBE (msg.length * 8)

/-- Group bytes into big-endian 32-bit words. -/
def bytesToWords : List Nat → List Nat
  | b0 :: b1 :: b2 :: b3 :: rest =>
      ((((b0 <<< 24) ||| (b1 <<< 16)) ||| (b2 <<< 8)) ||| b3) :: bytesToWords rest
  | _ => []

/-- Extend the 16-word message schedule by `n` further words. -/
def extendSchedule (w : Array Nat) : Nat → Array Nat
  | 0 => w
  | n + 1 =>
      let t := w.size
      let x := w32 (smallSigma1 (w.getD (t - 2) 0) + w.getD (t - 7) 0 +
        smallSigma0 (w.getD (t - 15) 0) + w.getD (t - 16) 0)
      extendSchedule (w.push x) n

/-- One SHA-256 compression round on the eight working variables. -/
def roundStep (s : List Nat) (k wi : Nat) : List Nat :=
  match s with
  | [a, b, c, d, e, f, g, h] =>
      let t1 := w32 (h + bigSigma1 e + ch32 e f g + k + wi)
      let t2 := w32 (bigSigma0 a + maj32 a b c)
      [w32 (t1 + t2), a, b, c, w32 (d + t1), e, f, g]
  | _ => s

/-- Compress one 64-byte block into the running hash value. -/
def compressBlock (h : List Nat) (block : List Nat) : List Nat :=
  let w := extendSchedule (Array.mk (bytesToWords block)) 48
  let s := (List.zip sha256K w.toList).foldl (fun st kw => roundStep st kw.1 kw.2) h
  List.zipWith (fun x y => w32 (x + y)) h s

/-- Compress `n` consecutive 64-byte blocks into the running hash value. -/
def processBlocksFuel : Nat → List Nat → List Nat → List Nat
  | 0, h, _ => h
  | n + 1, h, l => processBlocksFuel n (compressBlock h (l.take 64)) (l.drop 64)

/-- Fold the compression function over all 64-byte blocks; a padded message
has length an exact multiple of 64. -/
def processBlocks (h : List Nat) (l : List Nat) : List Nat :=
  processBlocksFuel (l.length / 64) h l

/-- Lowercase hexadecimal digit. -/
def hexDigit (n : Nat) : Char := Char.ofNat (if n < 10 then 48 + n else 87 + n)

/-- Eight-digit lowercase hex rendering of a 32-bit word. -/
def wordToHex (n : Nat) : List Char :=
  (List.range 8).map (fun i => hexDigit ((n >>> ((7 - i) * 4)) % 16))

/-- `hashlib.sha256(s.encode()).hexdigest()`. -/
def sha256hex (s : String) : String :=
  String.mk ((processBlocks sha256H0 (padMessage (strBytes s))).map wordToHex).flatten

/-- Embeds `hash_password` (src/app.py lines 72-73):
`return hashlib.sha256(password.encode()).hexdigest()`. -/
def hash_password (password : String) : String := sha256hex password

example :
    hash_password "123" =
      "a665a45920422f9d417e4867efdc4fb8a04a1f3fff1fa07e998e86f7f7a27ae3" := by
  decide

/-! ## The credential set

The Python `users` dict (`username → password hash`) is modelled as an
association list with unique keys that preserves insertion order, with the
dict operations used by the source: membership (`username in users`),
lookup (`users[username]`), assignment (`users[username] = h`, which
replaces the value of an existing key in place and otherwise appends), and
deletion (`del users[user]`). -/

/-- The in-memory credential set: the parsed content of `users.json`. -/
abbrev Users : Type := List (String × String)

/-- Python `username in users`. -/
def hasUser : Users → String → Bool
  | [], _ => false
  | (k, _) :: rest, u => k == u || hasUser rest u

/-- Python `users[username]` (as an `Option`, `none` when absent). -/
def getUser : Users → String → Option String
  | [], _ => none
  | (k, v) :: rest, u => if k == u then some v else getUser rest u

/-- Python `users[username] = h`: replace in place, or append a new entry. -/
def setUser : Users → String → String → Users
  | [], u, h => [(u, h)]
  | (k, v) :: rest, u, h => if k == u then (u, h) :: rest else (k, v) :: setUser rest u h

/-- Python `del users[u]`: remove the (unique) entry with key `u`. -/
def delUser : Users → String → Users
  | [], _ => []
  | (k, v) :: rest, u => if k == u then rest else (k, v) :: delUser rest u

/-- Python `for user in users`: the keys, in insertion order. -/
def userNames (users : Users) : List String := users.map (fun p => p.1)

/-! ## The backing store `users.json`

The store operations touch a single file, `USERS_FILE`, the file `users.json`.  Its
state is either absent, present with parseable content (modelled as the
parsed credential set — `json.dump`/`json.load` of a string-keyed dict is
an exact round trip), or present but unparseable, in which case `json.load`
raises and the raw content is kept by the model so that preservation of a
corrupt file can be stated. -/

/-- State of the backing file `users.json`. -/
inductive UsersFile : Type
  | absent : UsersFile
  | stored : Users → UsersFile
  | corrupt : String → UsersFile
deriving DecidableEq

/-- Failure while reading the backing store: `json.load` raised on
unparseable content.  The Python exception propagates to the caller. -/
inductive StorageError : Type
  | parseError : StorageError
deriving DecidableEq

/-- Outcome of `register_user`: `(True, "Регистрация успешна!")` or
`(False, "Логин занят")`. -/
inductive RegisterResult : Type
  | success : RegisterResult
  | alreadyExists : RegisterResult
deriving DecidableEq

instance {ε α : Type} [DecidableEq ε] [DecidableEq α] : DecidableEq (Except ε α) :=
  fun a b =>
    match a, b with
    | Except.ok x, Except.ok y =>
        if h : x = y then isTrue (by rw [h])
        else isFalse (by intro hc; injection hc; contradiction)
    | Except.error x, Except.error y =>
        if h : x = y then isTrue (by rw [h])
        else isFalse (by intro hc; injection hc; contradiction)
    | Except.ok _, Except.error _ => isFalse (by intro hc; cases hc)
    | Except.error _, Except.ok _ => isFalse (by intro hc; cases hc)

/-- The bootstrap credential set
`{"admin": hashlib.sha256("123".encode()).hexdigest()}`
(src/app.py line 60). -/
def default_users : Users := [("admin", hash_password "123")]

/-- Embeds `save_users` (src/app.py lines 67-69): open `users.json` for
writing and dump the full set, replacing any previous content. -/
def save_users (users : Users) : UsersFile := UsersFile.stored users

/-- Embeds `load_users` (src/app.py lines 58-64): when `users.json` does not
exist, build the default set, `save_users` it (a write to the file system)
and return it; otherwise parse the file, raising on unparseable content and
leaving the file untouched.  Returns the Python result (or the propagated
exception) together with the resulting file state. -/
def load_users : UsersFile → Except StorageError Users × UsersFile
  | UsersFile.absent => (Except.ok default_users, save_users default_users)
  | UsersFile.stored users => (Except.ok users, UsersFile.stored users)
  | UsersFile.corrupt raw => (Except.error StorageError.parseError, UsersFile.corrupt raw)

/-- Embeds `register_user` (src/app.py lines 76-82): load the current set;
if `username in users` return the failure result without writing; otherwise
assign `users[username] = hash_password(password)`, `save_users` the full
updated set, and return success.  An exception from `load_users`
propagates, leaving the file as `load_users` left it. -/
def register_user (username password : String) (fs : UsersFile) :
    Except StorageError RegisterResult × UsersFile :=
  match load_users fs with
  | (Except.error e, fs1) => (Except.error e, fs1)
  | (Except.ok users, fs1) =>
      if hasUser users username then (Except.ok RegisterResult.alreadyExists, fs1)
      else
        (Except.ok RegisterResult.success,
          save_users (setUser users username (hash_password password)))

/-- Embeds the credential check of `login` (src/app.py lines 376-379):
`users = load_users(); hashed = hash_password(password);
login_input in users and users[login_input] == hashed`.  This is the
`verify` operation of the spec.  An exception from `load_users`
propagates. -/
def verify_user (username password : String) (fs : UsersFile) :
    Except StorageError Bool × UsersFile :=
  match load_users fs with
  | (Except.error e, fs1) => (Except.error e, fs1)
  | (Except.ok users, fs1) =>
      (Except.ok (hasUser users username &&
        getUser users username == some (hash_password password)), fs1)

/-- Embeds the user listing of `admin_panel` (src/app.py lines 269-270):
`users = load_users(); for user in users` — the keys of the current set.
This is the `list` operation of the spec. -/
def list_users (fs : UsersFile) : Except StorageError (List String) × UsersFile :=
  match load_users fs with
  | (Except.error e, fs1) => (Except.error e, fs1)
  | (Except.ok users, fs1) => (Except.ok (userNames users), fs1)

/-- Embeds the deletion action of `admin_panel` (src/app.py lines 270-277):
for a user listed in the current set, the button runs
`del users[user]; save_users(users)`; for an absent username no entry is
listed, so nothing runs and the store is untouched.  This is the `remove`
operation of the spec; the `user != "admin"` guard around the button is the
caller-side access-control check the spec assigns to the caller, not to the
operation. -/
def remove_user (username : String) (fs : UsersFile) :
    Except StorageError Unit × UsersFile :=
  match load_users fs with
  | (Except.error e, fs1) => (Except.error e, fs1)
  | (Except.ok users, fs1) =>
      if hasUser users username then
        (Except.ok (), save_users (delUser users username))
      else (Except.ok (), fs1)

/-- The `initialize` operation of the spec: the effect on the backing store
of the bootstrap path of `load_users` (src/app.py lines 58-64), which is
how the source creates the store on first access. -/
def initStore (fs : UsersFile) : UsersFile := (load_users fs).2

/-- Outcome of the `register` form handler. -/
inductive FormOutcome : Type
  | passwordMismatch : FormOutcome
  | passwordTooShort : FormOutcome
  | loginTooShort : FormOutcome
  | storeResult : Except StorageError RegisterResult → FormOutcome
deriving DecidableEq

/-- Embeds the `register` form handler (src/app.py lines 394-406): reject a
mismatched confirmation, then a password shorter than 4, then a login
shorter than 3, and only otherwise call `register_user`. -/
def register_form (login_name password confirm : String) (fs : UsersFile) :
    FormOutcome × UsersFile :=
  if password != confirm then (FormOutcome.passwordMismatch, fs)
  else if password.length < 4 then (FormOutcome.passwordTooShort, fs)
  else if login_name.length < 3 then (FormOutcome.loginTooShort, fs)
  else
    match register_user login_name password fs with
    | (r, fs1) => (FormOutcome.storeResult r, fs1)

/-! ## Concurrent registration

`src/test_persistence.py` spawns one thread per username, each calling
`app.register_user(n, "pw")`, and checks the final content of `users.json`.
`register_user` is not protected by any lock, so between its `load_users`
call and its `save_users` call other threads may run.  A thread is modelled
with two atomic phases — the load, and the membership check plus assignment
plus save — and an interleaving is a list of thread indices; this is a
subset of the interleavings the unsynchronized Python code admits. -/

/-- One in-flight `register_user(username, password)` call: `snapshot` is
the set its `load_users` returned (`none` before the load ran), `result`
its return value (`none` while still running). -/
structure RegThread : Type where
  username : String
  password : String
  snapshot : Option Users
  result : Option (Except StorageError RegisterResult)
deriving DecidableEq

/-- Run the next atomic phase of the `register_user` call of one thread against
the shared backing store: first the `load_users` phase (which bootstraps an
absent store and raises on a corrupt one), then the check-and-save phase on
the snapshot the load returned.  A finished thread leaves everything
unchanged. -/
def threadStep (t : RegThread) (fs : UsersFile) : RegThread × UsersFile :=
  match t.snapshot, t.result with
  | none, _ =>
      match load_users fs with
      | (Except.error e, fs1) => ({ t with result := some (Except.error e) }, fs1)
      | (Except.ok users, fs1) => ({ t with snapshot := some users }, fs1)
  | some _, some _ => (t, fs)
  | some users, none =>
      if hasUser users t.username then
        ({ t with result := some (Except.ok RegisterResult.alreadyExists) }, fs)
      else
        ({ t with result := some (Except.ok RegisterResult.success) },
          save_users (setUser users t.username (hash_password t.password)))

/-- Shared state of a run of `test_persistence.py`-style concurrent
registration: the backing file and the per-thread states. -/
structure RegSystem : Type where
  fs : UsersFile
  threads : List RegThread
deriving DecidableEq

/-- Let thread `i` run its next atomic phase (out-of-range indices do
nothing). -/
def schedStep (sys : RegSystem) (i : Nat) : RegSystem :=
  match sys.threads[i]? with
  | none => sys
  | some t =>
      match threadStep t sys.fs with
      | (t1, fs1) => { fs := fs1, threads := sys.threads.set i t1 }

/-- Run a whole interleaving, given as the list of thread indices in the
order their atomic phases execute. -/
def runSched (sys : RegSystem) (sched : List Nat) : RegSystem :=
  sched.foldl schedStep sys

/-- A fresh, not-yet-started `register_user` call. -/
def mkThread (username password : String) : RegThread :=
  { username := username, password := password, snapshot := none, result := none }

/-- Membership of a username in the persisted credential set (`false` when
the file is absent or unparseable). -/
def fileHasUser (fs : UsersFile) (u : String) : Bool :=
  match fs with
  | UsersFile.stored users => hasUser users u
  | _ => false

/-- Two concurrent `register_user` calls with distinct usernames `"a"` and
`"b"` against an initialized store, as in the concurrency test. -/
def raceStart : RegSystem :=
  { fs := UsersFile.stored default_users
    threads := [mkThread "a" "pw", mkThread "b" "pw"] }

/-- The interleaving in which both threads load before either saves. -/
def raceEnd : RegSystem := runSched raceStart [0, 1, 0, 1]


/-! ## Helper lemmas about the dict operations -/

/-- Assigning a key that is not yet present appends the new pair at the
end, leaving every existing entry in place. -/
theorem setUser_eq_append (users : Users) (u h : String)
    (hu : hasUser users u = false) : setUser users u h = users ++ [(u, h)] := by
  induction users with
  | nil => rfl
  | cons kv rest ih =>
      obtain ⟨k, v⟩ := kv
      simp only [hasUser, Bool.or_eq_false_iff] at hu
      simp [setUser, hu.1, ih hu.2]

/-- Appending an entry for `u` does not change the lookup of any other
key. -/
theorem getUser_append_ne (users : Users) (u h v : String) (hv : v ≠ u) :
    getUser (users ++ [(u, h)]) v = getUser users v := by
  induction users with
  | nil =>
      have huv : (u == v) = false := beq_eq_false_iff_ne.mpr (Ne.symm hv)
      simp [getUser, huv]
  | cons kv rest ih =>
      obtain ⟨k, w⟩ := kv
      simp only [List.cons_append, getUser]
      cases hk : k == v <;> simp [hk, ih]

/-- A key just appended is a member. -/
theorem hasUser_append_self (users : Users) (u h : String) :
    hasUser (users ++ [(u, h)]) u = true := by
  induction users with
  | nil => simp [hasUser]
  | cons kv rest ih =>
      obtain ⟨k, v⟩ := kv
      simp [hasUser, ih]

/-- Looking up a key right after assigning it returns the assigned value. -/
theorem getUser_setUser_self (users : Users) (u h : String) :
    getUser (setUser users u h) u = some h := by
  induction users with
  | nil => simp [setUser, getUser]
  | cons kv rest ih =>
      obtain ⟨k, v⟩ := kv
      simp only [setUser]
      cases hk : k == u with
      | true => simp [getUser]
      | false => simp [getUser, hk, ih]

/-- The key list of an append. -/
theorem userNames_append (users : Users) (u h : String) :
    userNames (users ++ [(u, h)]) = userNames users ++ [u] := by
  simp [userNames]

/-- A successful registration implies the username was absent from the
loaded set. -/
theorem register_success_not_hasUser (users : Users) (u p : String)
    (hsucc : (register_user u p (UsersFile.stored users)).1 =
      Except.ok RegisterResult.success) : hasUser users u = false := by
  by_cases h : hasUser users u = true
  · simp [register_user, load_users, h] at hsucc
  · simpa using h

/-! ## The claims -/

/-- C1.  The claim states that N concurrent `register` calls with distinct
usernames against an initialized store always end with every username in
the final persisted set, no matter how the calls interleave.  The code has
no lock around the read-modify-write in `register_user`, and this theorem
evaluates the interleaving in which two threads registering `"a"` and
`"b"` both run `load_users` before either runs `save_users`: both calls
return success, yet the final persisted set is `{admin, b}` — the write of
`"a"` is lost, contradicting the claim (and the evident intent of the
concurrency check in `src/test_persistence.py`). -/
theorem register_interleaving_loses_write :
    (raceEnd.threads.map (fun t => t.result)) =
      [some (Except.ok RegisterResult.success),
       some (Except.ok RegisterResult.success)] ∧
    raceEnd.fs = save_users (setUser default_users "b" (hash_password "pw")) ∧
    fileHasUser raceEnd.fs "a" = false ∧
    fileHasUser raceEnd.fs "b" = true ∧
    fileHasUser raceEnd.fs "admin" = true := by
  decide

/-- C2.  `verify(u, p)` on a parsed store returns true exactly when `u` is
in the current credential set with stored hash equal to `hash(p)`; and
concretely, after `register("bob", "pw1234")` succeeds on the bootstrap
store, `verify("bob", "pw1234")` is true, `verify("bob", "wrong")` is
false, and `list()` contains `"bob"`. -/
theorem verify_checks_current_hash_and_roundtrip :
    (∀ (users : Users) (u p : String),
      (verify_user u p (UsersFile.stored users)).1 = Except.ok true ↔
        hasUser users u = true ∧ getUser users u = some (hash_password p)) ∧
    (register_user "bob" "pw1234" (UsersFile.stored default_users)).1 =
      Except.ok RegisterResult.success ∧
    (verify_user "bob" "pw1234"
      (register_user "bob" "pw1234" (UsersFile.stored default_users)).2).1 =
      Except.ok true ∧
    (verify_user "bob" "wrong"
      (register_user "bob" "pw1234" (UsersFile.stored default_users)).2).1 =
      Except.ok false ∧
    (∃ l, (list_users
      (register_user "bob" "pw1234" (UsersFile.stored default_users)).2).1 =
        Except.ok l ∧ "bob" ∈ l) := by
  refine ⟨?_, by decide, by decide, by decide, ⟨["admin", "bob"], by decide, by decide⟩⟩
  intro users u p
  simp [verify_user, load_users, Bool.and_eq_true]

/-- C3.  Registering a username absent from a parsed store computes the
digest of the password, inserts the pair, persists the full updated set in
the returned file state, and returns success; the inserted pair is
retrievable from the persisted set. -/
theorem register_inserts_and_persists (users : Users) (u p : String)
    (hu : hasUser users u = false) :
    register_user u p (UsersFile.stored users) =
      (Except.ok RegisterResult.success,
        save_users (setUser users u (hash_password p))) ∧
    getUser (setUser users u (hash_password p)) u = some (hash_password p) := by
  constructor
  · simp [register_user, load_users, hu]
  · exact getUser_setUser_self users u (hash_password p)

/-- Witness for C3 at the bootstrap store and username `"bob"`. -/
theorem register_inserts_and_persists_witness :
    register_user "bob" "pw1234" (UsersFile.stored default_users) =
      (Except.ok RegisterResult.success,
        save_users (setUser default_users "bob" (hash_password "pw1234"))) ∧
    getUser (setUser default_users "bob" (hash_password "pw1234")) "bob" =
      some (hash_password "pw1234") :=
  register_inserts_and_persists default_users "bob" "pw1234" (by decide)

/-- C4.  Registering a username already present in a parsed store (exact
string match) returns the already-exists outcome and leaves the credential
set and the backing file unchanged. -/
theorem register_existing_unchanged (users : Users) (u p : String)
    (hu : hasUser users u = true) :
    register_user u p (UsersFile.stored users) =
      (Except.ok RegisterResult.alreadyExists, UsersFile.stored users) := by
  simp [register_user, load_users, hu]

/-- Witness for C4 at the bootstrap store and the existing `"admin"`
entry. -/
theorem register_existing_unchanged_witness :
    register_user "admin" "newpw" (UsersFile.stored default_users) =
      (Except.ok RegisterResult.alreadyExists, UsersFile.stored default_users) :=
  register_existing_unchanged default_users "admin" "newpw" (by decide)

/-- C5.  The bootstrap (the effect of the `load_users` creation path, the
`initialize` of the spec) creates an absent store with exactly the single
entry `admin` mapped to the hash of the fixed default password `"123"`,
leaves an existing store — parseable or not — untouched, and is
idempotent: two runs produce the same store content as one. -/
theorem initStore_idempotent_bootstrap :
    initStore UsersFile.absent = UsersFile.stored [("admin", hash_password "123")] ∧
    (∀ users : Users, initStore (UsersFile.stored users) = UsersFile.stored users) ∧
    (∀ raw : String, initStore (UsersFile.corrupt raw) = UsersFile.corrupt raw) ∧
    (∀ fs : UsersFile, initStore (initStore fs) = initStore fs) := by
  refine ⟨rfl, fun users => rfl, fun raw => rfl, fun fs => ?_⟩
  cases fs <;> rfl

/-- C6 counterexample.  The claim states that `verify` never creates or
modifies the backing store file, including when the file is absent; but
`verify` goes through `load_users`, which on an absent file writes the
bootstrap set, so the file state after `verify("alice", "pw")` on an
absent store is a created file, not the absent state. -/
theorem verify_on_absent_store_creates_file :
    (verify_user "alice" "pw" UsersFile.absent).2 = UsersFile.stored default_users ∧
    (verify_user "alice" "pw" UsersFile.absent).2 ≠ UsersFile.absent :=
  ⟨rfl, fun h => UsersFile.noConfusion h⟩

/-- C6 as amended.  `verify` never mutates an existing backing store file,
parseable or corrupt; but when the file is absent, `verify` creates it with
the bootstrap `admin` entry (the `load_users` bootstrap), which is the one
mutation it performs. -/
theorem verify_readonly_on_existing_store :
    (∀ (users : Users) (u p : String),
      (verify_user u p (UsersFile.stored users)).2 = UsersFile.stored users) ∧
    (∀ (raw u p : String),
      (verify_user u p (UsersFile.corrupt raw)).2 = UsersFile.corrupt raw) ∧
    (∀ u p : String,
      (verify_user u p UsersFile.absent).2 = UsersFile.stored default_users) :=
  ⟨fun _ _ _ => rfl, fun _ _ _ => rfl, fun _ _ => rfl⟩

/-- C7.  On a present-but-unparseable backing store every store operation
— register, verify, list, remove, and the bootstrap — reports the parse
failure to the caller instead of treating the store as empty, and the
existing file content is left exactly as it was, never overwritten or
reset. -/
theorem corrupt_store_reports_error_everywhere :
    ∀ (raw u p : String),
      register_user u p (UsersFile.corrupt raw) =
        (Except.error StorageError.parseError, UsersFile.corrupt raw) ∧
      verify_user u p (UsersFile.corrupt raw) =
        (Except.error StorageError.parseError, UsersFile.corrupt raw) ∧
      list_users (UsersFile.corrupt raw) =
        (Except.error StorageError.parseError, UsersFile.corrupt raw) ∧
      remove_user u (UsersFile.corrupt raw) =
        (Except.error StorageError.parseError, UsersFile.corrupt raw) ∧
      initStore (UsersFile.corrupt raw) = UsersFile.corrupt raw :=
  fun _ _ _ => ⟨rfl, rfl, rfl, rfl, rfl⟩

/-- C8.  `remove(u)` on a parsed store deletes the entry and persists the
result when `u` is present and is a no-op — not an error — when `u` is
absent; and concretely, after `register("carol", x)` and `remove("carol")`
on the bootstrap store, `verify("carol", x)` is false and `list()` no
longer contains `"carol"`. -/
theorem remove_user_spec_and_carol_roundtrip :
    (∀ (users : Users) (u : String),
      remove_user u (UsersFile.stored users) =
        (Except.ok (),
          if hasUser users u then save_users (delUser users u)
          else UsersFile.stored users)) ∧
    (verify_user "carol" "pw9876"
      (remove_user "carol"
        (register_user "carol" "pw9876" (UsersFile.stored default_users)).2).2).1 =
      Except.ok false ∧
    (∃ l, (list_users
      (remove_user "carol"
        (register_user "carol" "pw9876" (UsersFile.stored default_users)).2).2).1 =
        Except.ok l ∧ "carol" ∉ l) := by
  refine ⟨?_, by decide, ⟨["admin"], by decide, by decide⟩⟩
  intro users u
  by_cases h : hasUser users u = true <;> simp [remove_user, load_users, h]

/-- C9.  A successful registration of `u` modifies nothing but the entry
for `u`: the updated set is the old set with the single pair for `u`
appended, every other username keeps exactly the lookup result — presence
and stored hash — it had before, and the key list is the old key list plus
`u`. -/
theorem register_success_frame (users : Users) (u p v : String)
    (hsucc : (register_user u p (UsersFile.stored users)).1 =
      Except.ok RegisterResult.success)
    (hv : v ≠ u) :
    (register_user u p (UsersFile.stored users)).2 =
      save_users (users ++ [(u, hash_password p)]) ∧
    getUser (users ++ [(u, hash_password p)]) v = getUser users v ∧
    userNames (users ++ [(u, hash_password p)]) = userNames users ++ [u] := by
  have hu : hasUser users u = false := register_success_not_hasUser users u p hsucc
  refine ⟨?_, getUser_append_ne users u (hash_password p) v hv,
    userNames_append users u (hash_password p)⟩
  simp [register_user, load_users, hu, setUser_eq_append users u (hash_password p) hu]

/-- Witness for C9: registering `"dave"` on the bootstrap store leaves the
`"admin"` entry untouched. -/
theorem register_success_frame_witness :
    (register_user "dave" "pw" (UsersFile.stored default_users)).2 =
      save_users (default_users ++ [("dave", hash_password "pw")]) ∧
    getUser (default_users ++ [("dave", hash_password "pw")]) "admin" =
      getUser default_users "admin" ∧
    userNames (default_users ++ [("dave", hash_password "pw")]) =
      userNames default_users ++ ["dave"] :=
  register_success_frame default_users "dave" "pw" "admin" (by decide) (by decide)

/-- C10.  The store operation itself performs no username validation: on a
parsed store without an empty-string key, `register_user("", p)` succeeds
and inserts the empty string as a key; the minimum-length check lives only
in the `register` form, which rejects the empty login before ever calling
the store (for any password that passes its earlier checks). -/
theorem store_accepts_empty_username_caller_rejects
    (users : Users) (p : String) (fs : UsersFile)
    (hu : hasUser users "" = false) (hp : 4 ≤ p.length) :
    register_user "" p (UsersFile.stored users) =
      (Except.ok RegisterResult.success,
        save_users (users ++ [("", hash_password p)])) ∧
    hasUser (users ++ [("", hash_password p)]) "" = true ∧
    register_form "" p p fs = (FormOutcome.loginTooShort, fs) := by
  refine ⟨?_, hasUser_append_self users "" (hash_password p), ?_⟩
  · simp [register_user, load_users, hu, setUser_eq_append users "" (hash_password p) hu]
  · have hp4 : ¬ p.length < 4 := by omega
    simp [register_form, hp4]

/-- Witness for C10 at the bootstrap store with password `"pw1234"`. -/
theorem store_accepts_empty_username_caller_rejects_witness :
    register_user "" "pw1234" (UsersFile.stored default_users) =
      (Except.ok RegisterResult.success,
        save_users (default_users ++ [("", hash_password "pw1234")])) ∧
    hasUser (default_users ++ [("", hash_password "pw1234")]) "" = true ∧
    register_form "" "pw1234" "pw1234" (UsersFile.stored default_users) =
      (FormOutcome.loginTooShort, UsersFile.stored default_users) :=
  store_accepts_empty_username_caller_rejects default_users "pw1234"
    (UsersFile.stored default_users) (by decide) (by decide)
